import Mathlib

/-!
Verification of the HW_06_Classification resume pipeline.

The pipeline exists in two parallel variants in the repository:
a staged variant (`src/transformations/*.py`, classes `*Stage`) and a
chained-handler variant (`src/handlers/*.py`, classes `*Handler`).
This file shallowly embeds the data model (pandas cells, rows and frames)
and the operations the claims are about, and proves the claims.
-/

namespace HW6

/-- Cells of a pandas DataFrame as they occur in this pipeline:
strings, integers, rationals (for salary floats; modelled exactly
as rationals) and NaN/missing. -/
inductive Cell where
  | str (s : String)
  | int (n : Int)
  | rat (q : ℚ)
  | na
deriving DecidableEq, Repr

/-- `isinstance(value, str)` on a cell. -/
def Cell.isStr : Cell → Bool
  | .str _ => true
  | _ => false

/-- Python `str(value)` on a cell (only the cases this pipeline hits;
`str(nan)` is `"nan"`). -/
def cellStr : Cell → String
  | .str s => s
  | .int n => toString n
  | .rat q => toString q
  | .na => "nan"

/-- Python `str.lower` restricted to the alphabets this pipeline uses:
ASCII letters and the Russian Cyrillic block (А..Я and Ё). -/
def pyLowerChar (c : Char) : Char :=
  if 'A' ≤ c ∧ c ≤ 'Z' then Char.ofNat (c.toNat + 32)
  else if 'А' ≤ c ∧ c ≤ 'Я' then Char.ofNat (c.toNat + 32)
  else if c = 'Ё' then 'ё'
  else c

def pyLower (s : String) : String := ⟨s.data.map pyLowerChar⟩

/-- Python `s.split(sep)` for a one-character separator: keeps empty
fields, never returns an empty list. -/
def splitChar (sep : Char) (cs : List Char) : List (List Char) :=
  cs.foldr
    (fun c acc =>
      if c = sep then [] :: acc
      else
        match acc with
        | a :: rest => (c :: a) :: rest
        | [] => [[c]])
    [[]]

def pySplit (sep : Char) (s : String) : List String :=
  (splitChar sep s.data).map (fun cs => ⟨cs⟩)

/-- Python `s.strip()` (whitespace at both ends). -/
def pyStrip (s : String) : String :=
  ⟨((s.data.dropWhile Char.isWhitespace).reverse.dropWhile Char.isWhitespace).reverse⟩

/-- Python `s.replace(a, b)` for one-character operands. -/
def charReplace (a b : Char) (s : String) : String :=
  ⟨s.data.map (fun c => if c = a then b else c)⟩

/-- Python `' '.join(l)`. -/
def joinWithSpace (l : List String) : String :=
  ⟨List.intercalate [' '] (l.map String.data)⟩

/-- `needle in hay` for Python strings: substring containment. -/
def containsSub (needle : List Char) : List Char → Bool
  | [] => needle.isEmpty
  | c :: t => needle.isPrefixOf (c :: t) || containsSub needle t

def strContains (hay needle : String) : Bool := containsSub needle.data hay.data

/-- `any(kw in title for kw in kws)`. -/
def hasAny (kws : List String) (title : String) : Bool :=
  kws.any (fun k => strContains title k)

/-- Value of a digit string (callers guarantee all characters are digits). -/
def natOfDigits (cs : List Char) : Nat :=
  cs.foldl (fun a c => a * 10 + (c.toNat - '0'.toNat)) 0

/-- Tail of a Python `int()` digit body: digit groups separated by single
underscores (`digit (('_')? digit)*` after the first digit). -/
def digitTail : List Char → Bool
  | [] => true
  | '_' :: c :: rest => c.isDigit && digitTail rest
  | ['_'] => false
  | c :: rest => c.isDigit && digitTail rest

def validDigitSeq : List Char → Bool
  | [] => false
  | c :: rest => c.isDigit && digitTail rest

/-- Python `int(s)`: strip whitespace, optional sign, decimal digits with
optional single underscores between digit groups; `none` models the
`ValueError` raised otherwise. -/
def pyInt (s : String) : Option Int :=
  let t := pyStrip s
  let sb : Int × List Char :=
    match t.data with
    | '+' :: rest => (1, rest)
    | '-' :: rest => (-1, rest)
    | cs => (1, cs)
  if validDigitSeq sb.2 then
    some (sb.1 * (natOfDigits (sb.2.filter (fun c => c ≠ '_')) : Int))
  else none

/-! ### Labeling (`transformations/labeling.py`, `handlers/labeling.py`) -/

/-- `DeveloperLevelLabelerStage.JUNIOR_INDICATORS`. -/
def JUNIOR_INDICATORS : List String :=
  ["junior", "jun ", "jr ", "trainee", "стажер", "стажёр",
   "intern", "младший", "начинающий"]

/-- `DeveloperLevelLabelerStage.SENIOR_INDICATORS`. -/
def SENIOR_INDICATORS : List String :=
  ["senior", "sr ", "lead", "principal", "staff", "ведущий",
   "главный", "руководитель", "team lead", "architect",
   "head of", "expert"]

/-- `DeveloperLevelLabelerStage.MIDDLE_INDICATORS`. -/
def MIDDLE_INDICATORS : List String :=
  ["middle", "mid ", "мидл", "мидлл"]

/-- `DeveloperLevelLabelerStage._determine_level` applied to the job title
string and the experience value (`row.get('experience_months', 0)`). -/
def determine_level (title : String) (experience_months : Int) : String :=
  let job_title := pyLower title
  let has_junior := hasAny JUNIOR_INDICATORS job_title
  let has_senior := hasAny SENIOR_INDICATORS job_title
  let has_middle := hasAny MIDDLE_INDICATORS job_title
  if has_senior && has_junior then
    if experience_months > 36 then "Senior" else "Junior"
  else if has_senior then "Senior"
  else if has_junior then
    if experience_months > 60 then "Middle" else "Junior"
  else if has_middle then
    if experience_months > 96 then "Senior" else "Middle"
  else if experience_months ≤ 18 then "Junior"
  else if experience_months ≤ 60 then "Middle"
  else "Senior"

/-- `LabelGradeHandler._JUNIOR_KW`. -/
def handlerJuniorKW : List String :=
  ["junior", "jun ", "jr ", "trainee", "стажер", "стажёр", "intern",
   "младший", "начинающий"]

/-- `LabelGradeHandler._SENIOR_KW`. -/
def handlerSeniorKW : List String :=
  ["senior", "sr ", "lead", "principal", "staff", "ведущий", "главный",
   "руководитель", "team lead", "architect", "head of", "expert"]

/-- `LabelGradeHandler._MIDDLE_KW`. -/
def handlerMiddleKW : List String :=
  ["middle", "mid ", "мидл", "мидлл"]

/-- `LabelGradeHandler._process._label` applied to the (already lowercased)
`_title` value and `row.get('experience_months', 0)`. -/
def labelGrade (title : String) (exp : Int) : String :=
  let is_junior := hasAny handlerJuniorKW title
  let is_senior := hasAny handlerSeniorKW title
  let is_middle := hasAny handlerMiddleKW title
  if is_senior && is_junior then
    if exp > 36 then "Senior" else "Junior"
  else if is_senior then "Senior"
  else if is_junior then
    if exp > 60 then "Middle" else "Junior"
  else if is_middle then
    if exp > 96 then "Senior" else "Middle"
  else if exp ≤ 18 then "Junior"
  else if exp ≤ 60 then "Middle"
  else "Senior"

/-- The ordered labeling rules as the specification states them, over the
lowercased title: (1) Senior and Junior indicators both match: Senior when
experience > 36 else Junior; (2) Senior indicator: Senior; (3) Junior
indicator: Middle when experience > 60 else Junior; (4) Middle indicator:
Senior when experience > 96 else Middle; (5) otherwise pure experience
thresholding at 18 and 60 months. -/
def specLevel (loweredTitle : String) (experience_months : Int) : String :=
  let has_junior := hasAny JUNIOR_INDICATORS loweredTitle
  let has_senior := hasAny SENIOR_INDICATORS loweredTitle
  let has_middle := hasAny MIDDLE_INDICATORS loweredTitle
  if has_senior && has_junior then
    if experience_months > 36 then "Senior" else "Junior"
  else if has_senior then "Senior"
  else if has_junior then
    if experience_months > 60 then "Middle" else "Junior"
  else if has_middle then
    if experience_months > 96 then "Senior" else "Middle"
  else if experience_months ≤ 18 then "Junior"
  else if experience_months ≤ 60 then "Middle"
  else "Senior"

/-! ### Personal info (`PersonalInfoExtractorStage`, `ParseGenderAgeBirthdayHandler`) -/

/-- `PersonalInfoExtractorStage._parse_gender`: non-strings map to 0,
strings map to 0 exactly when the stripped first comma token is one of
the male literals, else 1. -/
def parse_gender (value : Cell) : Int :=
  match value with
  | .str s =>
      let gender_part := pyStrip ((pySplit ',' s).headD "")
      if ["Мужчина", "Male"].contains gender_part then 0 else 1
  | _ => 0

/-- `ParseGenderAgeBirthdayHandler._process.extract_gender`: same rule for
strings, but a non-string cell raises `AttributeError` (modelled as `none`). -/
def extract_gender (value : Cell) : Option Int :=
  match value with
  | .str s =>
      let raw_gender := pyStrip ((pySplit ',' s).headD "")
      some (if ["Мужчина", "Male"].contains raw_gender then 0 else 1)
  | _ => none

/-- `PersonalInfoExtractorStage._parse_age`. -/
def parse_age (value : Cell) : Int :=
  match value with
  | .str s =>
      let parts := pySplit ',' s
      if parts.length < 2 then -1
      else
        let age_str :=
          (pySplit ' ' (charReplace '\xa0' ' ' (pyStrip ((parts.get? 1).getD "")))).headD ""
        (pyInt age_str).getD (-1)
  | _ => -1

/-- Month lookup table of `PersonalInfoExtractorStage._parse_birth_month`. -/
def month_map : List (String × Int) :=
  [("January", 0), ("января", 0), ("February", 1), ("февраля", 1),
   ("March", 2), ("марта", 2), ("April", 3), ("апреля", 3),
   ("May", 4), ("мая", 4), ("June", 5), ("июня", 5),
   ("July", 6), ("июля", 6), ("August", 7), ("августа", 7),
   ("September", 8), ("сентября", 8), ("October", 9), ("октября", 9),
   ("November", 10), ("ноября", 10), ("December", 11), ("декабря", 11)]

/-- `PersonalInfoExtractorStage._parse_birth_month`. The `[-2]` index raises
`IndexError` (uncaught) when the third comma field splits into fewer than two
space-separated parts; that is modelled as `.error`. -/
def parse_birth_month (value : Cell) : Except String Int :=
  match value with
  | .str s =>
      let parts := pySplit ',' s
      if parts.length < 3 then .ok (-1)
      else
        let ws := pySplit ' ' (charReplace '\xa0' ' ' (pyStrip ((parts.get? 2).getD "")))
        if ws.length < 2 then .error "IndexError"
        else .ok ((month_map.lookup (ws.getD (ws.length - 2) "")).getD (-1))
  | _ => .ok (-1)

/-! ### Salary (`SalaryExtractorStage`, `ParseSalaryHandler`) -/

/-- The fixed currency table, identical in both variants. Rates are exact
rationals standing for the Python float literals. -/
def CURRENCY_RATES : List (String × ℚ) :=
  [("руб.", 1), ("USD", 7335/100), ("RUB", 1), ("KZT", 18/100),
   ("бел. руб.", 228/100), ("EUR", 8586/100), ("грн.", 272/100), ("сум", 5/1000),
   ("KGS", 98/100), ("UAH", 25/10), ("BYN", 25/10), ("AZN", 411/10), ("som", 5/1000)]

/-- Shared tokenization: `value.replace('\xa0', ' ').strip().split(' ')`. -/
def salaryTokens (s : String) : List String :=
  pySplit ' ' (pyStrip (charReplace '\xa0' ' ' s))

/-- Python `str.isdigit` (ASCII digits, as occur in this data). -/
def pyIsDigit (s : String) : Bool := !s.data.isEmpty && s.data.all Char.isDigit

/-- The shared scanning loop of both salary parsers: accumulate digit-only
tokens into the amount; the first non-digit token starts the currency
descriptor, which is the remaining tokens joined by spaces. -/
def scanSalary : List String → String → String × String
  | [], digits => (digits, "")
  | tok :: rest, digits =>
      if pyIsDigit tok then scanSalary rest (digits ++ tok)
      else (digits, joinWithSpace (tok :: rest))

/-- `SalaryExtractorStage._normalize_salary`: total; non-strings and empty
digit runs map to 0, an unknown currency descriptor defaults to rate 1. -/
def normalize_salary (salary : Cell) : ℚ :=
  match salary with
  | .str s =>
      let p := scanSalary (salaryTokens s) ""
      if p.1.data.isEmpty then 0
      else
        let amount : ℚ := (natOfDigits p.1.data : ℚ)
        let rate := (CURRENCY_RATES.lookup (pyStrip p.2)).getD 1
        amount * rate
  | _ => 0

/-- `ParseSalaryHandler._process.extract_salary`: `none` models the raised
exception — `AttributeError` for non-strings, `KeyError` for a currency
descriptor not in the table, `ValueError` from `float('')` when no digit
token was found. -/
def extract_salary (value : Cell) : Option ℚ :=
  match value with
  | .str s =>
      let p := scanSalary (salaryTokens s) ""
      match CURRENCY_RATES.lookup (pyStrip p.2) with
      | none => none
      | some rate =>
          if p.1.data.isEmpty then none
          else some (rate * (natOfDigits p.1.data : ℚ))
  | _ => none

/-! ### Experience (`ExperienceExtractorStage`, `ParseExperienceHandler`) -/

def yearWords : List (List Char) := ["год".data, "года".data, "лет".data]

def monthWords : List (List Char) := ["месяц".data, "месяца".data, "месяцев".data]

def startsWithAny (kws : List (List Char)) (cs : List Char) : Bool :=
  kws.any (fun k => k.isPrefixOf cs)

/-- `re.search(r'(\d+)\s*(?:w1|w2|w3)', s)`: the leftmost run of digits that
is followed (after optional whitespace) by one of the keywords; returns the
value of the digit group. -/
def searchNumBefore (kws : List (List Char)) : List Char → Option Nat
  | [] => none
  | c :: rest =>
      if c.isDigit then
        let ds := (c :: rest).takeWhile Char.isDigit
        let t1 := (c :: rest).dropWhile Char.isDigit
        let t2 := t1.dropWhile Char.isWhitespace
        if startsWithAny kws t2 then some (natOfDigits ds)
        else searchNumBefore kws rest
      else searchNumBefore kws rest

/-- `ExperienceExtractorStage._extract_months`: non-strings map to 0;
otherwise 12 times the first integer before a year word plus the first
integer before a month word, each contributing 0 when absent. -/
def extract_months (exp : Cell) : Int :=
  match exp with
  | .str s =>
      let total := 0
      let total := total + ((searchNumBefore yearWords s.data).getD 0 : Int) * 12
      let total := total + ((searchNumBefore monthWords s.data).getD 0 : Int)
      total
  | _ => 0

/-- `ParseExperienceHandler._process.extract` — textually the same algorithm
as the stage variant. -/
def handlerExtract (value : Cell) : Int :=
  match value with
  | .str s =>
      let total := 0
      let total := total + ((searchNumBefore yearWords s.data).getD 0 : Int) * 12
      let total := total + ((searchNumBefore monthWords s.data).getD 0 : Int)
      total
  | _ => 0

/-! ### Resume freshness (`MiscExtractorStage._is_old_resume`, `ParseResumeHandler`) -/

/-- The `int(date_str.split('.')[2].split(' ')[0])` computation inside the
`try` blocks of both resume parsers; `none` models the caught
`IndexError`/`ValueError`. -/
def resumeYear (s : String) : Option Int :=
  match (pySplit '.' s).get? 2 with
  | none => none
  | some p3 => pyInt ((pySplit ' ' p3).headD "")

/-- `MiscExtractorStage._is_old_resume`: non-strings map to 0; the year is
the third '.'-separated field's first space part; `IndexError`/`ValueError`
are caught and map to 0; year ≤ 2018 maps to 1, later years to 0. -/
def is_old_resume (date : Cell) : Int :=
  match date with
  | .str s =>
      match resumeYear s with
      | none => 0
      | some year => if year ≤ 2018 then 1 else 0
  | _ => 0

/-- `ParseResumeHandler._process.is_old`: same computation with a bare
`except` (which also absorbs the `AttributeError` of a non-string cell). -/
def handlerIsOld (date : Cell) : Int :=
  match date with
  | .str s =>
      match resumeYear s with
      | none => 0
      | some year => if year > 2018 then 0 else 1
  | _ => 0

/-- The claim's characterization of the freshness flag: the input is a string
whose year token — third '.'-separated field, first space-delimited part —
parses as an integer at most 2018. -/
def specOldResume (v : Cell) : Bool :=
  match v with
  | .str s =>
      match ((pySplit '.' s).get? 2).bind (fun field3 => pyInt ((pySplit ' ' field3).headD "")) with
      | some y => decide (y ≤ 2018)
      | none => false
  | _ => false

/-! ### DataFrame model

A DataFrame is a column-name list plus rows; each row is an association
list from column names to cells. Stages that can raise a Python exception
return `Except`. -/

abbrev Row := List (String × Cell)

/-- Row lookup by column name (pandas `row[k]` / `row.get(k)`). -/
def lkp (k : String) : Row → Option Cell
  | [] => none
  | (k2, v) :: rest => if k2 = k then some v else lkp k rest

/-- Column assignment at row level: overwrite in place when the key exists,
append otherwise (pandas column assignment). -/
def setKey (k : String) (v : Cell) : Row → Row
  | [] => [(k, v)]
  | (k2, v2) :: rest => if k2 = k then (k, v) :: rest else (k2, v2) :: setKey k v rest

structure Df where
  cols : List String
  rows : List Row
deriving DecidableEq, Repr

/-- Column-name bookkeeping of pandas assignment `df[c] = ...`. -/
def addColName (c : String) (cols : List String) : List String :=
  if c ∈ cols then cols else cols ++ [c]

/-- `mapM` over `Except`, written with plain structural recursion. -/
def mapE (f : α → Except String β) : List α → Except String (List β)
  | [] => .ok []
  | a :: as =>
      match f a with
      | .error e => .error e
      | .ok b =>
          match mapE f as with
          | .error e => .error e
          | .ok bs => .ok (b :: bs)

/-- `df[dst] = df[src].apply(f)`: reading a missing column raises `KeyError`;
`f` itself may raise. -/
def applyColE (dst src : String) (f : Cell → Except String Cell) (df : Df) :
    Except String Df :=
  if src ∈ df.cols then
    match mapE (fun r =>
        match f ((lkp src r).getD .na) with
        | .error e => .error e
        | .ok v => .ok (setKey dst v r)) df.rows with
    | .error e => .error e
    | .ok rows => .ok { cols := addColName dst df.cols, rows := rows }
  else .error ("KeyError: " ++ src)

/-- `df[dst] = const` (broadcast assignment; never raises). -/
def setConstCol (dst : String) (v : Cell) (df : Df) : Df :=
  { cols := addColName dst df.cols
    rows := df.rows.map (fun r => setKey dst v r) }

/-- `df[dst] = df.apply(f, axis=1)` for a total row function. -/
def applyRowCol (dst : String) (f : Row → Cell) (df : Df) : Df :=
  { cols := addColName dst df.cols
    rows := df.rows.map (fun r => setKey dst (f r) r) }

/-- `df.drop(columns=cs)` once all names are known to be present. -/
def dropCols (cs : List String) (df : Df) : Df :=
  { cols := df.cols.filter (fun c => !(cs.contains c))
    rows := df.rows.map (fun r => r.filter (fun p => !(cs.contains p.1))) }

/-- `df.drop(columns=cs)`: raises `KeyError` when a name is absent. -/
def dropColsE (cs : List String) (df : Df) : Except String Df :=
  if cs.all (fun c => df.cols.contains c) then .ok (dropCols cs df)
  else .error "KeyError: drop"

/-- Wrap a total cell parser for `applyColE`. -/
def totalF (f : Cell → Cell) : Cell → Except String Cell := fun c => .ok (f c)

/-! ### Extraction stages (`transformations/feature_extractors.py`) -/

/-- `PersonalInfoExtractorStage.execute`. -/
def personalInfoExecute (df : Df) : Except String Df :=
  match applyColE "gender" "Пол, возраст" (totalF (fun c => .int (parse_gender c))) df with
  | .error e => .error e
  | .ok d1 =>
    match applyColE "age" "Пол, возраст" (totalF (fun c => .int (parse_age c))) d1 with
    | .error e => .error e
    | .ok d2 =>
      match applyColE "birth_month" "Пол, возраст"
          (fun c => match parse_birth_month c with
                    | .error e => .error e
                    | .ok n => .ok (.int n)) d2 with
      | .error e => .error e
      | .ok d3 => dropColsE ["Пол, возраст"] d3

/-- `SalaryExtractorStage.execute`. -/
def salaryExecute (df : Df) : Except String Df :=
  match applyColE "salary_rub" "ЗП" (totalF (fun c => .rat (normalize_salary c))) df with
  | .error e => .error e
  | .ok d1 => dropColsE ["ЗП"] d1

/-- `ExperienceExtractorStage.execute`. -/
def experienceExecute (df : Df) : Except String Df :=
  match applyColE "experience_months" "Опыт (двойное нажатие для полной версии)"
      (totalF (fun c => .int (extract_months c))) df with
  | .error e => .error e
  | .ok d1 => dropColsE ["Опыт (двойное нажатие для полной версии)"] d1

/-- `LocationExtractorStage.REGION_MAPPING`. -/
def REGION_MAPPING : List (String × List String) :=
  [("Moscow & Oblast",
    ["Москва", "Moscow", "Зеленоград", "Подольск", "Балашиха", "Химки", "Мытищи",
     "Королев", "Люберцы", "Красногорск", "Одинцово", "Домодедово", "Щелково",
     "Серпухов", "Раменское", "Долгопрудный", "Реутов", "Пушкино", "Лобня"]),
   ("Saint Petersburg & Oblast",
    ["Санкт-Петербург", "Saint Petersburg", "Гатчина", "Выборг", "Всеволожск",
     "Сосновый Бор", "Кириши", "Тихвин", "Сертолово"]),
   ("Central Federal District",
    ["Воронеж", "Ярославль", "Рязань", "Тверь", "Тула", "Липецк", "Курск",
     "Брянск", "Иваново", "Белгород", "Владимир", "Калуга", "Орел", "Смоленск",
     "Тамбов", "Кострома", "Старый Оскол"]),
   ("Volga Federal District",
    ["Казань", "Kazan", "Нижний Новгород", "Самара", "Уфа", "Пермь", "Саратов",
     "Тольятти", "Ижевск", "Ульяновск", "Оренбург", "Пенза", "Набережные Челны",
     "Чебоксары", "Киров", "Саранск", "Стерлитамак", "Йошкар-Ола"]),
   ("South and North Caucasus Federal District",
    ["Краснодар", "Ростов-на-Дону", "Волгоград", "Сочи", "Ставрополь", "Астрахань",
     "Севастополь", "Симферополь", "Новороссийск", "Таганрог", "Махачкала",
     "Владикавказ", "Грозный", "Майкоп", "Пятигорск"]),
   ("Ural Federal District",
    ["Екатеринбург", "Yekaterinburg", "Челябинск", "Тюмень", "Магнитогорск",
     "Сургут", "Нижневартовск", "Курган", "Новый Уренгой", "Ноябрьск", "Ханты-Мансийск"]),
   ("Siberian Federal District",
    ["Новосибирск", "Novosibirsk", "Красноярск", "Омск", "Томск", "Барнаул",
     "Иркутск", "Кемерово", "Новокузнецк", "Абакан", "Братск", "Ангарск"]),
   ("Far Eastern Federal District",
    ["Владивосток", "Хабаровск", "Улан-Удэ", "Чита", "Благовещенск", "Якутск",
     "Петропавловск-Камчатский", "Южно-Сахалинск", "Находка"]),
   ("Kazakhstan",
    ["Алматы", "Almaty", "Нур-Султан", "Астана", "Astana", "Шымкент", "Актобе",
     "Караганда", "Атырау", "Актау", "Павлодар", "Уральск"]),
   ("Belarus",
    ["Минск", "Minsk", "Гомель", "Витебск", "Могилев", "Гродно", "Брест"]),
   ("Other countries / CIS",
    ["Киев", "Kyiv", "Ташкент", "Бишкек", "Тбилиси", "Баку", "Ереван", "Рига", "Вильнюс"])]

/-- `LocationExtractorStage._categorize_city`. -/
def categorize_city (city : Cell) : String :=
  match city with
  | .str s =>
      let city_name := pyStrip ((pySplit ',' s).headD "")
      match REGION_MAPPING.find? (fun p => p.2.contains city_name) with
      | some p => p.1
      | none => "Other"
  | _ => "Other"

/-- `LocationExtractorStage.execute`. -/
def locationExecute (df : Df) : Except String Df :=
  match applyColE "region" "Город" (totalF (fun c => .str (categorize_city c))) df with
  | .error e => .error e
  | .ok d1 => dropColsE ["Город"] d1

/-- The keyword-flag cell transform shared by the employment, schedule and
education stages: `1 if any(kw in str(x).lower() for kw in keywords) else 0`. -/
def flagCell (kws : List String) (c : Cell) : Cell :=
  .int (if hasAny kws (pyLower (cellStr c)) then 1 else 0)

/-- One loop iteration family: add one flag column per `(name, keywords)`
pair, reading the same source column each time. -/
def applyFlagCols (src : String) (items : List (String × List String)) :
    Df → Except String Df
  | df =>
      match items with
      | [] => .ok df
      | (dst, kws) :: rest =>
          match applyColE dst src (totalF (flagCell kws)) df with
          | .error e => .error e
          | .ok d1 => applyFlagCols src rest d1

/-- `EmploymentExtractorStage.EMPLOYMENT_TYPES`, with the generated column
names (`employment_` prefix) already attached. -/
def EMPLOYMENT_TYPES : List (String × List String) :=
  [("employment_full_time", ["полная занятость", "full time"]),
   ("employment_part_time", ["частичная занятость", "part time"]),
   ("employment_project", ["проектная работа", "project work"]),
   ("employment_internship", ["стажировка", "work placement"]),
   ("employment_volunteering", ["волонтерство", "volunteering"])]

/-- `EmploymentExtractorStage.execute`. -/
def employmentExecute (df : Df) : Except String Df :=
  match applyFlagCols "Занятость" EMPLOYMENT_TYPES df with
  | .error e => .error e
  | .ok d1 => dropColsE ["Занятость"] d1

/-- `ScheduleExtractorStage.SCHEDULE_TYPES` with generated column names. -/
def SCHEDULE_TYPES : List (String × List String) :=
  [("schedule_full_day", ["полный день", "full day"]),
   ("schedule_flexible", ["гибкий график", "flexible schedule"]),
   ("schedule_shift", ["сменный график", "shift schedule"]),
   ("schedule_remote", ["удаленная работа", "remote working"]),
   ("schedule_rotation", ["вахтовый метод", "rotation based work"])]

/-- `ScheduleExtractorStage.execute`. -/
def scheduleExecute (df : Df) : Except String Df :=
  match applyFlagCols "График" SCHEDULE_TYPES df with
  | .error e => .error e
  | .ok d1 => dropColsE ["График"] d1

/-- `EducationExtractorStage.EDUCATION_LEVELS` with generated column names. -/
def EDUCATION_LEVELS : List (String × List String) :=
  [("education_incomplete_higher", ["неоконченное высшее", "incomplete higher"]),
   ("education_higher", ["высшее образование", "higher education"]),
   ("education_secondary_special", ["среднее специальное", "secondary special"]),
   ("education_secondary", ["среднее образование", "secondary education"])]

/-- `EducationExtractorStage.execute`. -/
def educationExecute (df : Df) : Except String Df :=
  match applyFlagCols "Образование и ВУЗ" EDUCATION_LEVELS df with
  | .error e => .error e
  | .ok d1 => dropColsE ["Образование и ВУЗ"] d1

/-- `MiscExtractorStage.execute`: everything is guarded on column presence,
so the stage never raises. -/
def miscExecute (df : Df) : Except String Df :=
  let d1 :=
    if "Обновление резюме" ∈ df.cols then
      dropCols ["Обновление резюме"]
        (applyRowCol "resume_old"
          (fun r => .int (is_old_resume ((lkp "Обновление резюме" r).getD .na))) df)
    else df
  let d2 :=
    if "Авто" ∈ d1.cols then
      dropCols ["Авто"]
        (applyRowCol "has_car"
          (fun r =>
            .int (if (lkp "Авто" r).getD .na = .str "Имеется собственный автомобиль"
                  then 1 else 0)) d1)
    else d1
  let d3 :=
    if "Последенее/нынешнее место работы" ∈ d2.cols then
      dropCols ["Последенее/нынешнее место работы"] d2
    else d2
  let d4 :=
    if "Последеняя/нынешняя должность" ∈ d3.cols then
      dropCols ["Последеняя/нынешняя должность"] d3
    else d3
  .ok d4

/-! ### Labeling stage and handler at DataFrame level -/

/-- `df[col].fillna('').astype(str)` at cell level: NaN becomes the empty
string, everything else its `str()` image. -/
def fillnaStr (c : Cell) : Cell :=
  match c with
  | .na => .str ""
  | c => .str (cellStr c)

/-- `df[col].fillna('').str.lower()` at cell level (handler variant). -/
def fillnaLower (c : Cell) : Cell :=
  match c with
  | .na => .str ""
  | .str s => .str (pyLower s)
  | c => c

/-- `row.get('experience_months', 0)` as the integer the labeler compares
against. The extraction stage always stores integers in this column, so
non-integer cells (which would make the Python comparison raise) do not
occur; they are mapped to 0 here. -/
def expOfRow (r : Row) : Int :=
  match lkp "experience_months" r with
  | some (.int n) => n
  | some _ => 0
  | none => 0

/-- The row function `DeveloperLevelLabelerStage.execute` maps over the
table: `str(row.get('_job_title', '')).lower()` fed to `_determine_level`
together with `row.get('experience_months', 0)`. -/
def determine_level_row (r : Row) : String :=
  determine_level (cellStr ((lkp "_job_title" r).getD (.str ""))) (expOfRow r)

/-- `DeveloperLevelLabelerStage.execute` (the target-vector copy aside,
which duplicates the `developer_level` column and is recorded on the
container elsewhere). Total: every step is guarded in the source. -/
def labelingExecute (df : Df) : Df :=
  let job_title_col := "Ищет работу на должность:"
  let d1 :=
    if job_title_col ∈ df.cols then
      applyRowCol "_job_title"
        (fun r => fillnaStr ((lkp job_title_col r).getD .na)) df
    else setConstCol "_job_title" (.str "") df
  let d2 := applyRowCol "developer_level" (fun r => .str (determine_level_row r)) d1
  let columns_to_remove :=
    ["_job_title"]
      ++ (if job_title_col ∈ df.cols then [job_title_col] else [])
      ++ (if "experience_months" ∈ df.cols then ["experience_months"] else [])
  dropCols columns_to_remove d2

/-- The row function of `LabelGradeHandler._process._label`: the `_title`
column is already lowercased. -/
def labelGradeRow (r : Row) : String :=
  labelGrade (cellStr ((lkp "_title" r).getD (.str ""))) (expOfRow r)

/-- `LabelGradeHandler._process`. -/
def labelGradeExecute (df : Df) : Df :=
  let raw_title_col := "Ищет работу на должность:"
  let d1 :=
    if raw_title_col ∈ df.cols then
      applyRowCol "_title" (fun r => fillnaLower ((lkp raw_title_col r).getD .na)) df
    else if "job" ∈ df.cols then
      applyRowCol "_title" (fun r => fillnaLower ((lkp "job" r).getD .na)) df
    else setConstCol "_title" (.str "") df
  let d2 := applyRowCol "grade" (fun r => .str (labelGradeRow r)) d1
  let cols_to_drop :=
    ["_title"]
      ++ (if raw_title_col ∈ df.cols then [raw_title_col] else [])
      ++ (if "experience_months" ∈ df.cols then ["experience_months"] else [])
      ++ (if "Последеняя/нынешняя должность" ∈ df.cols
          then ["Последеняя/нынешняя должность"] else [])
  dropCols cols_to_drop d2

/-! ### Feature/target split (`FeatureTargetSplitterStage`) -/

/-- `src/core.py` `DataContainer`, restricted to the fields the split stage
touches. -/
structure DataContainer where
  processed_data : Option Df
  feature_matrix : Option (List (List Cell))
  target_vector : Option (List Cell)
  feature_labels : List String
deriving DecidableEq, Repr

/-- `df[c].values`. -/
def colValues (c : String) (df : Df) : List Cell :=
  df.rows.map (fun r => (lkp c r).getD .na)

/-- `df.values`: row-major, following the column order. -/
def dfValues (df : Df) : List (List Cell) :=
  df.rows.map (fun r => df.cols.map (fun c => (lkp c r).getD .na))

/-- `FeatureTargetSplitterStage.execute`. When the target column is absent
it logs an error and returns the container unchanged — `.ok c`, not
`.error` — leaving `feature_matrix`, `feature_labels` and `target_vector`
unpopulated. `.error` models an actual raise (`container.processed_data`
being `None` makes `.copy()` raise `AttributeError`). -/
def featureTargetSplitterExecute (c : DataContainer) : Except String DataContainer :=
  match c.processed_data with
  | none => .error "AttributeError"
  | some df =>
      if "developer_level" ∈ df.cols then
        let feature_df := dropCols ["developer_level"] df
        .ok { c with
              target_vector := some (colValues "developer_level" df)
              feature_matrix := some (dfValues feature_df)
              feature_labels := feature_df.cols
              processed_data := none }
      else .ok c

/-! ### Categorical encoding (`CategoricalEncoderStage`)

One-hot encoding is a column-wise operation, so the encoder is embedded
over a columnar frame: each column carries its name, its pandas dtype
(`object` or numeric) and its cells. -/

inductive ColKind where
  | obj
  | num
deriving DecidableEq, Repr

abbrev CCol := String × ColKind × List Cell

structure CDf where
  cols : List CCol
deriving DecidableEq, Repr

def colNames (df : CDf) : List String := df.cols.map (fun c => c.1)

/-- The string values a pandas object column actually holds (`get_dummies`
ignores NaN). -/
def observedStrs (vals : List Cell) : List String :=
  vals.filterMap (fun c => match c with | .str s => some s | _ => none)

/-- Lexicographic order on code points (the order pandas sorts string
levels by). -/
def charListLe : List Char → List Char → Bool
  | [], _ => true
  | _ :: _, [] => false
  | a :: as, b :: bs => if a < b then true else if b < a then false else charListLe as bs

def strLeB (a b : String) : Bool := charListLe a.data b.data

/-- Insertion sort by `strLeB` (pandas sorts the levels of an encoded
column). -/
def insertSorted (x : String) : List String → List String
  | [] => [x]
  | y :: ys => if strLeB x y then x :: y :: ys else y :: insertSorted x ys

def sortStr (l : List String) : List String := l.foldr insertSorted []

/-- Distinct observed values of a column, in the sorted order `get_dummies`
uses for its levels. -/
def levelsOf (vals : List Cell) : List String := sortStr (observedStrs vals).dedup

/-- The indicator columns `get_dummies(..., drop_first=True, prefix_sep='_')`
generates for one source column: one per level except the first (reference)
level, named `name ++ "_" ++ level`. -/
def dummyColsOf (name : String) (vals : List Cell) : List CCol :=
  (levelsOf vals).tail.map (fun v =>
    (name ++ "_" ++ v, ColKind.num,
     vals.map (fun c => Cell.int (if c = .str v then 1 else 0))))

/-- `pd.get_dummies(df, columns=catCols, drop_first=True, prefix_sep='_')`:
the non-encoded columns keep their order, the indicator columns are
appended, per encoded source column in frame order. -/
def get_dummies (catCols : List String) (df : CDf) : CDf :=
  { cols :=
      df.cols.filter (fun c => !(catCols.contains c.1))
        ++ (df.cols.filter (fun c => catCols.contains c.1)).flatMap
             (fun c => dummyColsOf c.1 c.2.2) }

/-- `df.select_dtypes(include=['object']).columns.tolist()` followed by the
guarded `remove('developer_level')` (`List.erase` is exactly Python
`list.remove` guarded by membership). -/
def categorical_cols (df : CDf) : List String :=
  ((df.cols.filter (fun c => c.2.1 = ColKind.obj)).map (fun c => c.1)).erase
    "developer_level"

def lookupCol (n : String) (df : CDf) : Option CCol :=
  df.cols.find? (fun c => c.1 = n)

/-- `df[n] = column` on the columnar frame: overwrite in place or append. -/
def setColC (col : CCol) (df : CDf) : CDf :=
  if (colNames df).contains col.1 then
    { cols := df.cols.map (fun c => if c.1 = col.1 then col else c) }
  else { cols := df.cols ++ [col] }

/-- `CategoricalEncoderStage.execute`: identify the object columns, exclude
the target, one-hot encode, then the (redundant) block that re-adds any
numeric column `get_dummies` would have lost and re-assigns the target. -/
def encoderExecute (df : CDf) : CDf :=
  let catCols := categorical_cols df
  if catCols.isEmpty then df
  else
    let encoded := get_dummies catCols df
    let numeric_cols :=
      ((df.cols.filter (fun c => c.2.1 = ColKind.num)).map (fun c => c.1)).erase
        "developer_level"
    let encoded := numeric_cols.foldl
      (fun acc n =>
        if (colNames acc).contains n then acc
        else match lookupCol n df with
             | some col => { cols := acc.cols ++ [col] }
             | none => acc) encoded
    let encoded :=
      if (colNames df).contains "developer_level" then
        match lookupCol "developer_level" df with
        | some col => setColC col encoded
        | none => encoded
      else encoded
    encoded

/-- Positional alignment of two row lists: same length, same order, and
row `i` of the output agrees with row `i` of the input on every column
outside the stage's touched set `S`. -/
def RowsAligned (S : List String) (rs rs' : List Row) : Prop :=
  List.Forall₂ (fun r r' => ∀ k : String, ¬ k ∈ S → lkp k r' = lkp k r) rs rs'

/-- A container whose table lacks the `developer_level` target column. -/
def c3_container : DataContainer :=
  { processed_data := some { cols := ["salary_rub"], rows := [[("salary_rub", .rat 100)]] }
    feature_matrix := none
    target_vector := none
    feature_labels := [] }

def c6pi_in : Df :=
  { cols := ["Пол, возраст"]
    rows := [[("Пол, возраст", .str "Мужчина , 33 года , родился 5 мая 1990")]] }

def c6pi_out : Df :=
  { cols := ["gender", "age", "birth_month"]
    rows := [[("gender", .int 0), ("age", .int 33), ("birth_month", .int 4)]] }

def c6sal_in : Df := { cols := ["ЗП"], rows := [[("ЗП", .na)]] }

def c6sal_out : Df := { cols := ["salary_rub"], rows := [[("salary_rub", .rat 0)]] }

def c6exp_in : Df :=
  { cols := ["Опыт (двойное нажатие для полной версии)"]
    rows := [[("Опыт (двойное нажатие для полной версии)", .str "5 лет")]] }

def c6exp_out : Df :=
  { cols := ["experience_months"], rows := [[("experience_months", .int 60)]] }

def c6loc_in : Df := { cols := ["Город"], rows := [[("Город", .str "Минск")]] }

def c6loc_out : Df := { cols := ["region"], rows := [[("region", .str "Belarus")]] }

def c6emp_in : Df :=
  { cols := ["Занятость"], rows := [[("Занятость", .str "полная занятость")]] }

def c6emp_out : Df :=
  { cols := ["employment_full_time", "employment_part_time", "employment_project",
             "employment_internship", "employment_volunteering"]
    rows := [[("employment_full_time", .int 1), ("employment_part_time", .int 0),
              ("employment_project", .int 0), ("employment_internship", .int 0),
              ("employment_volunteering", .int 0)]] }

def c6sch_in : Df := { cols := ["График"], rows := [[("График", .str "полный день")]] }

def c6sch_out : Df :=
  { cols := ["schedule_full_day", "schedule_flexible", "schedule_shift",
             "schedule_remote", "schedule_rotation"]
    rows := [[("schedule_full_day", .int 1), ("schedule_flexible", .int 0),
              ("schedule_shift", .int 0), ("schedule_remote", .int 0),
              ("schedule_rotation", .int 0)]] }

def c6edu_in : Df :=
  { cols := ["Образование и ВУЗ"]
    rows := [[("Образование и ВУЗ", .str "Высшее образование 2010 МГУ")]] }

def c6edu_out : Df :=
  { cols := ["education_incomplete_higher", "education_higher",
             "education_secondary_special", "education_secondary"]
    rows := [[("education_incomplete_higher", .int 0), ("education_higher", .int 1),
              ("education_secondary_special", .int 0), ("education_secondary", .int 0)]] }

def c6misc_in : Df :=
  { cols := ["Обновление резюме", "Авто"]
    rows := [[("Обновление резюме", .str "01.05.2017 10:00"),
              ("Авто", .str "Имеется собственный автомобиль")]] }

def c6misc_out : Df :=
  { cols := ["resume_old", "has_car"]
    rows := [[("resume_old", .int 1), ("has_car", .int 1)]] }

def c8vals : List Cell := [.str "b", .str "a", .str "c", .str "a"]

def c8df : CDf :=
  { cols := [("region", ColKind.obj, c8vals),
             ("age", ColKind.num, [.int 30, .int 40, .int 25, .int 33]),
             ("developer_level", ColKind.obj,
              [.str "Junior", .str "Senior", .str "Middle", .str "Junior"])] }

/-! ### Theorems -/

/-- C1: for every row, the seniority label is determined from the lowercased
job title and the experience months by exactly the spec's ordered rules
(conflict tie-break at 36 months, unconditional Senior, Junior-indicator
demotion threshold 60, Middle-indicator promotion threshold 96, pure
experience thresholding at 18/60), in both the staged and the handler
variant; including the spec's tie-break examples at 40 and 10 months. -/
theorem c1_labeling_rules :
    (∀ (title : String) (exp : Int),
        determine_level title exp = specLevel (pyLower title) exp
        ∧ labelGrade (pyLower title) exp = specLevel (pyLower title) exp)
    ∧ determine_level "Junior/Senior Developer" 40 = "Senior"
    ∧ determine_level "Junior/Senior Developer" 10 = "Junior" := by
  refine ⟨fun title exp => ⟨rfl, rfl⟩, by decide, by decide⟩

/-- C7: the experience parser maps non-strings and non-matching strings to
0, and otherwise sums 12 times the first integer preceding a year word with
the first integer preceding a month word; the handler variant computes the
same function, and the spec's examples evaluate as stated. -/
theorem c7_experience_months :
    extract_months Cell.na = 0
    ∧ (∀ n : Int, extract_months (.int n) = 0)
    ∧ (∀ q : ℚ, extract_months (.rat q) = 0)
    ∧ extract_months (.str "") = 0
    ∧ extract_months (.str "no numbers here") = 0
    ∧ extract_months (.str "3 года 4 месяца") = 40
    ∧ extract_months (.str "5 лет") = 60
    ∧ (∀ v : Cell, handlerExtract v = extract_months v)
    ∧ (∀ s : String,
        extract_months (.str s)
          = 12 * ((searchNumBefore yearWords s.data).getD 0 : Int)
            + ((searchNumBefore monthWords s.data).getD 0 : Int)) := by
  refine ⟨rfl, fun n => rfl, fun q => rfl, by decide, by decide, by decide, by decide,
    fun v => rfl, fun s => ?_⟩
  show (0 : Int) + _ * 12 + _ = _
  ring

/-- C9: the resume-freshness parser is total, always returns 0 or 1, and
returns 1 exactly when the cell is a string whose year token (third
'.'-separated field, first space-delimited part) parses as an integer at
most 2018; the handler variant agrees with the staged variant everywhere. -/
theorem c9_resume_freshness :
    ∀ v : Cell,
      (is_old_resume v = 0 ∨ is_old_resume v = 1)
      ∧ is_old_resume v = (if specOldResume v then 1 else 0)
      ∧ handlerIsOld v = is_old_resume v := by
  intro v
  cases v with
  | str s =>
      have hbind :
          ((pySplit '.' s).get? 2).bind
              (fun field3 => pyInt ((pySplit ' ' field3).headD ""))
            = resumeYear s := by
        unfold resumeYear
        cases (pySplit '.' s).get? 2 <;> rfl
      simp only [is_old_resume, handlerIsOld, specOldResume, hbind]
      cases hy : resumeYear s with
      | none => simp
      | some y =>
          by_cases h2018 : y ≤ 2018
          · simp [h2018, not_lt.mpr h2018]
          · simp [h2018, lt_of_not_ge h2018]
  | int n => simp [is_old_resume, handlerIsOld, specOldResume]
  | rat q => simp [is_old_resume, handlerIsOld, specOldResume]
  | na => simp [is_old_resume, handlerIsOld, specOldResume]

/-- C5 counterexample: the claim says a missing/non-string cell is
classified female (1); the staged parser classifies it male (0). -/
theorem c5_counterexample :
    parse_gender Cell.na = 0 ∧ ¬ parse_gender Cell.na = 1 := by
  exact ⟨rfl, by decide⟩

/-- C5 amended: a string cell is classified male (0) exactly when its
stripped first comma token is one of the fixed male literals, else female
(1), and the handler variant agrees on strings; but a missing or non-string
cell is classified male (0) by the staged parser (while the handler variant
raises `AttributeError` on it). -/
theorem c5_gender_amended :
    ∀ v : Cell,
      (∀ s : String, v = .str s →
          parse_gender v
            = (if ["Мужчина", "Male"].contains (pyStrip ((pySplit ',' s).headD ""))
               then 0 else 1)
          ∧ extract_gender v = some (parse_gender v))
      ∧ (v.isStr = false → parse_gender v = 0 ∧ extract_gender v = none) := by
  intro v
  constructor
  · rintro s rfl
    exact ⟨rfl, rfl⟩
  · intro h
    cases v with
    | str s => simp [Cell.isStr] at h
    | int n => exact ⟨rfl, rfl⟩
    | rat q => exact ⟨rfl, rfl⟩
    | na => exact ⟨rfl, rfl⟩

/-- Witness for `c5_gender_amended` at a male string cell and at NaN. -/
theorem c5_gender_witness :
    (parse_gender (.str "Мужчина, 33 года")
        = (if ["Мужчина", "Male"].contains
              (pyStrip ((pySplit ',' "Мужчина, 33 года").headD ""))
           then 0 else 1)
      ∧ extract_gender (.str "Мужчина, 33 года")
        = some (parse_gender (.str "Мужчина, 33 года")))
    ∧ (parse_gender Cell.na = 0 ∧ extract_gender Cell.na = none) :=
  ⟨(c5_gender_amended (.str "Мужчина, 33 года")).1 "Мужчина, 33 года" rfl,
   (c5_gender_amended Cell.na).2 rfl⟩

/-- C4 counterexample: on `"5000 XYZ"` (unknown currency descriptor) the
staged normalizer defaults the rate to 1 and returns 5000, while the
handler variant raises `KeyError`; the two parallel implementations do not
compute the same result on every input. -/
theorem c4_counterexample :
    normalize_salary (.str "5000 XYZ") = 5000
    ∧ extract_salary (.str "5000 XYZ") = none := by
  refine ⟨?_, rfl⟩
  have h : normalize_salary (.str "5000 XYZ") = ((5000 : ℕ) : ℚ) * 1 := rfl
  rw [h]
  norm_num

/-- C4 amended: the handler variant refines the staged variant — whenever
`extract_salary` returns a number (known currency, non-empty digit run),
`_normalize_salary` returns the same number; on the remaining inputs the
staged variant totalizes (unknown currency → rate 1, no digits or
non-string → 0) while the handler variant raises. -/
theorem c4_salary_refinement :
    ∀ (v : Cell) (q : ℚ), extract_salary v = some q → normalize_salary v = q := by
  intro v q h
  cases v with
  | str s =>
      simp only [extract_salary] at h
      simp only [normalize_salary]
      rcases hl : CURRENCY_RATES.lookup (pyStrip (scanSalary (salaryTokens s) "").2) with _ | rate
      · simp only [hl] at h
        exact Option.noConfusion h
      · simp only [hl, Option.getD_some]
        simp only [hl] at h
        by_cases hd : (scanSalary (salaryTokens s) "").1.data.isEmpty = true
        · rw [if_pos hd] at h
          exact Option.noConfusion h
        · rw [if_neg hd] at h
          rw [if_neg hd]
          rw [Option.some.injEq] at h
          rw [← h]
          exact mul_comm _ _
  | int n => exact absurd h (by simp [extract_salary])
  | rat p => exact absurd h (by simp [extract_salary])
  | na => exact absurd h (by simp [extract_salary])

/-- Witness for `c4_salary_refinement` at `"100 USD"`. -/
theorem c4_salary_witness :
    extract_salary (.str "100 USD") = some (7335 : ℚ)
    ∧ normalize_salary (.str "100 USD") = (7335 : ℚ) := by
  have he : extract_salary (.str "100 USD")
      = some ((7335 / 100 : ℚ) * ((100 : ℕ) : ℚ)) := rfl
  have hv : extract_salary (.str "100 USD") = some (7335 : ℚ) := by
    rw [he]
    norm_num
  exact ⟨hv, c4_salary_refinement (.str "100 USD") 7335 hv⟩

/-- C3: evaluated on a table without the target column, the split stage does
not raise — it returns the container unchanged (`.ok`), with the feature
matrix, feature-name list and target vector all still unpopulated —
although the spec requires it to fail loudly. -/
theorem c3_split_does_not_fail_loudly :
    featureTargetSplitterExecute c3_container = .ok c3_container
    ∧ c3_container.feature_matrix = none
    ∧ c3_container.target_vector = none
    ∧ c3_container.feature_labels = [] :=
  ⟨rfl, rfl, rfl, rfl⟩

/-- C10: when the `experience_months` key is absent from a row, the labeler
does not raise — `row.get('experience_months', 0)` defaults to 0 — so the
label is `_determine_level(title, 0)`, which lies in the closed set
{Junior, Middle, Senior} and is determined by the title keywords alone:
under the labeler's rule precedence, titles with a Junior indicator (the
Senior+Junior conflict included, since 0 ≤ 36) and titles with no keyword
are labeled Junior, Middle-indicator titles Middle, and Senior-indicator
titles (without a Junior indicator) Senior. -/
theorem c10_absent_experience_defaults :
    (∀ r : Row, lkp "experience_months" r = none →
        determine_level_row r
          = determine_level (cellStr ((lkp "_job_title" r).getD (.str ""))) 0)
    ∧ (∀ t : String,
        determine_level t 0 ∈ (["Junior", "Middle", "Senior"] : List String)
        ∧ (hasAny JUNIOR_INDICATORS (pyLower t) = false
            ∧ hasAny SENIOR_INDICATORS (pyLower t) = false
            ∧ hasAny MIDDLE_INDICATORS (pyLower t) = false →
              determine_level t 0 = "Junior")
        ∧ (hasAny JUNIOR_INDICATORS (pyLower t) = true →
              determine_level t 0 = "Junior")
        ∧ (hasAny MIDDLE_INDICATORS (pyLower t) = true
            ∧ hasAny JUNIOR_INDICATORS (pyLower t) = false
            ∧ hasAny SENIOR_INDICATORS (pyLower t) = false →
              determine_level t 0 = "Middle")
        ∧ (hasAny SENIOR_INDICATORS (pyLower t) = true
            ∧ hasAny JUNIOR_INDICATORS (pyLower t) = false →
              determine_level t 0 = "Senior")) := by
  constructor
  · intro r h
    unfold determine_level_row expOfRow
    rw [h]
  · intro t
    unfold determine_level
    cases hJ : hasAny JUNIOR_INDICATORS (pyLower t) <;>
      cases hS : hasAny SENIOR_INDICATORS (pyLower t) <;>
        cases hM : hasAny MIDDLE_INDICATORS (pyLower t) <;>
          simp [hJ, hS, hM]

/-- Witness for `c10_absent_experience_defaults`: a row without the
`experience_months` key, and a Junior-indicator title. -/
theorem c10_witness :
    (determine_level_row [("x", .int 1)]
        = determine_level (cellStr ((lkp "_job_title" [("x", Cell.int 1)]).getD (.str ""))) 0)
    ∧ determine_level "intern" 0 = "Junior" :=
  ⟨c10_absent_experience_defaults.1 [("x", .int 1)] rfl,
   (c10_absent_experience_defaults.2 "intern").2.2.1 (by decide)⟩

/-! ### Row-identity infrastructure for the extraction stages -/

theorem rowsAligned_refl (S : List String) (rs : List Row) : RowsAligned S rs rs :=
  List.forall₂_same.mpr (fun _ _ _ _ => rfl)

theorem RowsAligned.mono {S T : List String} {rs rs' : List Row}
    (h : RowsAligned S rs rs') (hsub : ∀ k, k ∈ S → k ∈ T) :
    RowsAligned T rs rs' :=
  h.imp (fun _ _ hr k hk => hr k (fun hmem => hk (hsub k hmem)))

theorem RowsAligned.comp {S T : List String} {rs1 rs2 rs3 : List Row}
    (h1 : RowsAligned S rs1 rs2) (h2 : RowsAligned T rs2 rs3) :
    RowsAligned (S ++ T) rs1 rs3 := by
  induction h1 generalizing rs3 with
  | nil =>
      cases h2
      exact List.Forall₂.nil
  | cons ha hl ih =>
      cases h2 with
      | cons hb hl2 =>
          refine List.Forall₂.cons (fun k hk => ?_) (ih hl2)
          rw [List.mem_append] at hk
          push_neg at hk
          exact (hb k hk.2).trans (ha k hk.1)

theorem RowsAligned.length_eq {S : List String} {rs rs' : List Row}
    (h : RowsAligned S rs rs') : rs'.length = rs.length :=
  (List.Forall₂.length_eq h).symm

theorem lkp_setKey (k d : String) (v : Cell) (r : Row) :
    lkp k (setKey d v r) = if d = k then some v else lkp k r := by
  induction r with
  | nil => simp [setKey, lkp]
  | cons p rest ih =>
      obtain ⟨k2, v2⟩ := p
      by_cases h2 : k2 = d
      · subst h2
        simp only [setKey, if_pos rfl, lkp]
        by_cases h3 : k2 = k
        · rw [if_pos h3, if_pos h3]
        · rw [if_neg h3, if_neg h3, if_neg h3]
      · simp only [setKey, if_neg h2, lkp]
        by_cases h3 : k2 = k
        · rw [if_pos h3, if_pos h3]
          rw [if_neg (fun hdk : d = k => h2 (h3.trans hdk.symm))]
        · rw [if_neg h3, if_neg h3, ih]

theorem lkp_dropKeys {cs : List String} {k : String} (r : Row)
    (h : ¬ k ∈ cs) :
    lkp k (r.filter (fun p => !(cs.contains p.1))) = lkp k r := by
  induction r with
  | nil => rfl
  | cons p rest ih =>
      obtain ⟨k2, v2⟩ := p
      by_cases h2 : k2 ∈ cs
      · have hne : k2 ≠ k := fun he => h (he ▸ h2)
        rw [@List.filter_cons_of_neg _ (fun p : String × Cell => !(cs.contains p.1))
            (k2, v2) rest (by simp [List.contains, List.elem_eq_mem, h2])]
        rw [ih, lkp, if_neg hne]
      · rw [@List.filter_cons_of_pos _ (fun p : String × Cell => !(cs.contains p.1))
            (k2, v2) rest (by simp [List.contains, List.elem_eq_mem, h2])]
        by_cases h3 : k2 = k
        · rw [lkp, lkp, if_pos h3, if_pos h3]
        · rw [lkp, lkp, if_neg h3, if_neg h3, ih]

theorem mapE_ok_forall₂ {α β : Type} {f : α → Except String β} {l : List α}
    {l2 : List β} (h : mapE f l = .ok l2) :
    List.Forall₂ (fun a b => f a = .ok b) l l2 := by
  induction l generalizing l2 with
  | nil =>
      simp only [mapE] at h
      cases h
      exact List.Forall₂.nil
  | cons a as ih =>
      simp only [mapE] at h
      cases hfa : f a with
      | error e => rw [hfa] at h; cases h
      | ok b =>
          rw [hfa] at h
          cases hm : mapE f as with
          | error e => rw [hm] at h; cases h
          | ok bs =>
              rw [hm] at h
              cases h
              exact List.Forall₂.cons hfa (ih hm)

theorem applyColE_ok_aligned {dst src : String} {f : Cell → Except String Cell}
    {df df' : Df} (h : applyColE dst src f df = .ok df') :
    RowsAligned [dst] df.rows df'.rows := by
  unfold applyColE at h
  by_cases hs : src ∈ df.cols
  · rw [if_pos hs] at h
    cases hm : mapE (fun r =>
        match f ((lkp src r).getD .na) with
        | .error e => .error e
        | .ok v => .ok (setKey dst v r)) df.rows with
    | error e => rw [hm] at h; cases h
    | ok rows =>
        rw [hm] at h
        cases h
        refine (mapE_ok_forall₂ hm).imp (fun r r2 hr k hk => ?_)
        cases hfv : f ((lkp src r).getD .na) with
        | error e => rw [hfv] at hr; cases hr
        | ok v =>
            rw [hfv] at hr
            cases hr
            rw [lkp_setKey]
            rw [if_neg (fun hd => hk (List.mem_singleton.mpr hd.symm))]
  · rw [if_neg hs] at h
    cases h

theorem dropCols_aligned (cs : List String) (df : Df) :
    RowsAligned cs df.rows (dropCols cs df).rows := by
  simp only [dropCols]
  rw [RowsAligned, List.forall₂_map_right_iff]
  exact List.forall₂_same.mpr (fun r _ k hk => lkp_dropKeys r hk)

theorem dropColsE_ok_aligned {cs : List String} {df df' : Df}
    (h : dropColsE cs df = .ok df') :
    RowsAligned cs df.rows df'.rows := by
  unfold dropColsE at h
  by_cases hc : cs.all (fun c => df.cols.contains c) = true
  · rw [if_pos hc] at h
    cases h
    exact dropCols_aligned cs df
  · rw [if_neg hc] at h
    cases h

theorem applyRowCol_aligned (dst : String) (f : Row → Cell) (df : Df) :
    RowsAligned [dst] df.rows (applyRowCol dst f df).rows := by
  simp only [applyRowCol]
  rw [RowsAligned, List.forall₂_map_right_iff]
  refine List.forall₂_same.mpr (fun r _ k hk => ?_)
  rw [lkp_setKey]
  rw [if_neg (fun hd => hk (List.mem_singleton.mpr hd.symm))]

theorem setConstCol_aligned (dst : String) (v : Cell) (df : Df) :
    RowsAligned [dst] df.rows (setConstCol dst v df).rows := by
  simp only [setConstCol]
  rw [RowsAligned, List.forall₂_map_right_iff]
  refine List.forall₂_same.mpr (fun r _ k hk => ?_)
  rw [lkp_setKey]
  rw [if_neg (fun hd => hk (List.mem_singleton.mpr hd.symm))]

theorem mem_addColName {k c : String} {cols : List String} :
    k ∈ addColName c cols ↔ k = c ∨ k ∈ cols := by
  unfold addColName
  by_cases h : c ∈ cols
  · rw [if_pos h]
    constructor
    · exact Or.inr
    · rintro (rfl | hk)
      · exact h
      · exact hk
  · rw [if_neg h]
    simp [or_comm]

theorem mem_dropCols {k : String} {cs : List String} {df : Df} :
    k ∈ (dropCols cs df).cols ↔ k ∈ df.cols ∧ ¬ k ∈ cs := by
  simp [dropCols, List.mem_filter, List.contains, List.elem_eq_mem]

theorem applyFlagCols_ok_aligned {src : String} {items : List (String × List String)}
    {df df' : Df} (h : applyFlagCols src items df = .ok df') :
    RowsAligned (items.map (fun p => p.1)) df.rows df'.rows := by
  induction items generalizing df with
  | nil =>
      simp only [applyFlagCols] at h
      cases h
      exact rowsAligned_refl _ _
  | cons it rest ih =>
      obtain ⟨dst, kws⟩ := it
      simp only [applyFlagCols] at h
      cases ha : applyColE dst src (totalF (flagCell kws)) df with
      | error e => rw [ha] at h; cases h
      | ok d1 =>
          rw [ha] at h
          exact (applyColE_ok_aligned ha).comp (ih h)

/-- C6: every extraction stage preserves row identity: whenever a stage
succeeds, the output table has exactly as many rows as the input, in the
same order — positionally, row `i` of the output agrees with row `i` of
the input on every column the stage does not touch. Stages only add their
derived columns and remove their consumed source column; they never drop
or reorder rows. -/
theorem c6_extraction_preserves_rows :
    (∀ df df', personalInfoExecute df = .ok df' →
        df'.rows.length = df.rows.length
        ∧ RowsAligned ["gender", "age", "birth_month", "Пол, возраст"] df.rows df'.rows)
    ∧ (∀ df df', salaryExecute df = .ok df' →
        df'.rows.length = df.rows.length
        ∧ RowsAligned ["salary_rub", "ЗП"] df.rows df'.rows)
    ∧ (∀ df df', experienceExecute df = .ok df' →
        df'.rows.length = df.rows.length
        ∧ RowsAligned ["experience_months", "Опыт (двойное нажатие для полной версии)"]
            df.rows df'.rows)
    ∧ (∀ df df', locationExecute df = .ok df' →
        df'.rows.length = df.rows.length
        ∧ RowsAligned ["region", "Город"] df.rows df'.rows)
    ∧ (∀ df df', employmentExecute df = .ok df' →
        df'.rows.length = df.rows.length
        ∧ RowsAligned ["employment_full_time", "employment_part_time",
            "employment_project", "employment_internship", "employment_volunteering",
            "Занятость"] df.rows df'.rows)
    ∧ (∀ df df', scheduleExecute df = .ok df' →
        df'.rows.length = df.rows.length
        ∧ RowsAligned ["schedule_full_day", "schedule_flexible", "schedule_shift",
            "schedule_remote", "schedule_rotation", "График"] df.rows df'.rows)
    ∧ (∀ df df', educationExecute df = .ok df' →
        df'.rows.length = df.rows.length
        ∧ RowsAligned ["education_incomplete_higher", "education_higher",
            "education_secondary_special", "education_secondary", "Образование и ВУЗ"]
            df.rows df'.rows)
    ∧ (∀ df df', miscExecute df = .ok df' →
        df'.rows.length = df.rows.length
        ∧ RowsAligned ["resume_old", "Обновление резюме", "has_car", "Авто",
            "Последенее/нынешнее место работы", "Последеняя/нынешняя должность"]
            df.rows df'.rows) := by
  refine ⟨?_, ?_, ?_, ?_, ?_, ?_, ?_, ?_⟩
  · intro df df' h
    unfold personalInfoExecute at h
    split at h
    · cases h
    · rename_i d1 h1
      split at h
      · cases h
      · rename_i d2 h2
        split at h
        · cases h
        · rename_i d3 h3
          have hal := (applyColE_ok_aligned h1).comp
            ((applyColE_ok_aligned h2).comp
              ((applyColE_ok_aligned h3).comp (dropColsE_ok_aligned h)))
          exact ⟨hal.length_eq, hal⟩
  · intro df df' h
    unfold salaryExecute at h
    split at h
    · cases h
    · rename_i d1 h1
      have hal := (applyColE_ok_aligned h1).comp (dropColsE_ok_aligned h)
      exact ⟨hal.length_eq, hal⟩
  · intro df df' h
    unfold experienceExecute at h
    split at h
    · cases h
    · rename_i d1 h1
      have hal := (applyColE_ok_aligned h1).comp (dropColsE_ok_aligned h)
      exact ⟨hal.length_eq, hal⟩
  · intro df df' h
    unfold locationExecute at h
    split at h
    · cases h
    · rename_i d1 h1
      have hal := (applyColE_ok_aligned h1).comp (dropColsE_ok_aligned h)
      exact ⟨hal.length_eq, hal⟩
  · intro df df' h
    unfold employmentExecute at h
    split at h
    · cases h
    · rename_i d1 h1
      have hal := (applyFlagCols_ok_aligned h1).comp (dropColsE_ok_aligned h)
      exact ⟨hal.length_eq, hal⟩
  · intro df df' h
    unfold scheduleExecute at h
    split at h
    · cases h
    · rename_i d1 h1
      have hal := (applyFlagCols_ok_aligned h1).comp (dropColsE_ok_aligned h)
      exact ⟨hal.length_eq, hal⟩
  · intro df df' h
    unfold educationExecute at h
    split at h
    · cases h
    · rename_i d1 h1
      have hal := (applyFlagCols_ok_aligned h1).comp (dropColsE_ok_aligned h)
      exact ⟨hal.length_eq, hal⟩
  · intro df df' h
    unfold miscExecute at h
    rw [Except.ok.injEq] at h
    subst h
    have hb1 : ∀ d : Df, RowsAligned ["resume_old", "Обновление резюме"] d.rows
        (if "Обновление резюме" ∈ d.cols then
          dropCols ["Обновление резюме"]
            (applyRowCol "resume_old"
              (fun r => .int (is_old_resume ((lkp "Обновление резюме" r).getD .na))) d)
         else d).rows := by
      intro d
      by_cases hc : "Обновление резюме" ∈ d.cols
      · rw [if_pos hc]
        exact (applyRowCol_aligned _ _ _).comp (dropCols_aligned _ _)
      · rw [if_neg hc]
        exact rowsAligned_refl _ _
    have hb2 : ∀ d : Df, RowsAligned ["has_car", "Авто"] d.rows
        (if "Авто" ∈ d.cols then
          dropCols ["Авто"]
            (applyRowCol "has_car"
              (fun r =>
                .int (if (lkp "Авто" r).getD .na = .str "Имеется собственный автомобиль"
                      then 1 else 0)) d)
         else d).rows := by
      intro d
      by_cases hc : "Авто" ∈ d.cols
      · rw [if_pos hc]
        exact (applyRowCol_aligned _ _ _).comp (dropCols_aligned _ _)
      · rw [if_neg hc]
        exact rowsAligned_refl _ _
    have hb3 : ∀ d : Df, RowsAligned ["Последенее/нынешнее место работы"] d.rows
        (if "Последенее/нынешнее место работы" ∈ d.cols then
          dropCols ["Последенее/нынешнее место работы"] d
         else d).rows := by
      intro d
      by_cases hc : "Последенее/нынешнее место работы" ∈ d.cols
      · rw [if_pos hc]
        exact dropCols_aligned _ _
      · rw [if_neg hc]
        exact rowsAligned_refl _ _
    have hb4 : ∀ d : Df, RowsAligned ["Последеняя/нынешняя должность"] d.rows
        (if "Последеняя/нынешняя должность" ∈ d.cols then
          dropCols ["Последеняя/нынешняя должность"] d
         else d).rows := by
      intro d
      by_cases hc : "Последеняя/нынешняя должность" ∈ d.cols
      · rw [if_pos hc]
        exact dropCols_aligned _ _
      · rw [if_neg hc]
        exact rowsAligned_refl _ _
    have hal := (hb1 df).comp ((hb2 _).comp ((hb3 _).comp (hb4 _)))
    exact ⟨hal.length_eq, hal⟩

/-- Witness for `c6_extraction_preserves_rows`: each of the eight stages run
on a concrete one-row table. -/
theorem c6_witness :
    (personalInfoExecute c6pi_in = .ok c6pi_out
      ∧ c6pi_out.rows.length = c6pi_in.rows.length
        ∧ RowsAligned ["gender", "age", "birth_month", "Пол, возраст"]
            c6pi_in.rows c6pi_out.rows)
    ∧ (salaryExecute c6sal_in = .ok c6sal_out
      ∧ c6sal_out.rows.length = c6sal_in.rows.length
        ∧ RowsAligned ["salary_rub", "ЗП"] c6sal_in.rows c6sal_out.rows)
    ∧ (experienceExecute c6exp_in = .ok c6exp_out
      ∧ c6exp_out.rows.length = c6exp_in.rows.length
        ∧ RowsAligned ["experience_months", "Опыт (двойное нажатие для полной версии)"]
            c6exp_in.rows c6exp_out.rows)
    ∧ (locationExecute c6loc_in = .ok c6loc_out
      ∧ c6loc_out.rows.length = c6loc_in.rows.length
        ∧ RowsAligned ["region", "Город"] c6loc_in.rows c6loc_out.rows)
    ∧ (employmentExecute c6emp_in = .ok c6emp_out
      ∧ c6emp_out.rows.length = c6emp_in.rows.length
        ∧ RowsAligned ["employment_full_time", "employment_part_time",
            "employment_project", "employment_internship", "employment_volunteering",
            "Занятость"] c6emp_in.rows c6emp_out.rows)
    ∧ (scheduleExecute c6sch_in = .ok c6sch_out
      ∧ c6sch_out.rows.length = c6sch_in.rows.length
        ∧ RowsAligned ["schedule_full_day", "schedule_flexible", "schedule_shift",
            "schedule_remote", "schedule_rotation", "График"]
            c6sch_in.rows c6sch_out.rows)
    ∧ (educationExecute c6edu_in = .ok c6edu_out
      ∧ c6edu_out.rows.length = c6edu_in.rows.length
        ∧ RowsAligned ["education_incomplete_higher", "education_higher",
            "education_secondary_special", "education_secondary", "Образование и ВУЗ"]
            c6edu_in.rows c6edu_out.rows)
    ∧ (miscExecute c6misc_in = .ok c6misc_out
      ∧ c6misc_out.rows.length = c6misc_in.rows.length
        ∧ RowsAligned ["resume_old", "Обновление резюме", "has_car", "Авто",
            "Последенее/нынешнее место работы", "Последеняя/нынешняя должность"]
            c6misc_in.rows c6misc_out.rows) :=
  ⟨⟨rfl, c6_extraction_preserves_rows.1 c6pi_in c6pi_out rfl⟩,
   ⟨rfl, c6_extraction_preserves_rows.2.1 c6sal_in c6sal_out rfl⟩,
   ⟨rfl, c6_extraction_preserves_rows.2.2.1 c6exp_in c6exp_out rfl⟩,
   ⟨rfl, c6_extraction_preserves_rows.2.2.2.1 c6loc_in c6loc_out rfl⟩,
   ⟨rfl, c6_extraction_preserves_rows.2.2.2.2.1 c6emp_in c6emp_out rfl⟩,
   ⟨rfl, c6_extraction_preserves_rows.2.2.2.2.2.1 c6sch_in c6sch_out rfl⟩,
   ⟨rfl, c6_extraction_preserves_rows.2.2.2.2.2.2.1 c6edu_in c6edu_out rfl⟩,
   ⟨rfl, c6_extraction_preserves_rows.2.2.2.2.2.2.2 c6misc_in c6misc_out rfl⟩⟩

/-- C2: after the labeling stage, neither the raw job-title column nor
`experience_months` nor the helper title column survives, while the target
label column has been added — in the staged variant (`developer_level`) and
in the handler variant (`grade`, helper `_title`) alike. -/
theorem c2_labeling_drops_leakage_columns :
    ∀ df : Df,
      ("_job_title" ∉ (labelingExecute df).cols
        ∧ "Ищет работу на должность:" ∉ (labelingExecute df).cols
        ∧ "experience_months" ∉ (labelingExecute df).cols
        ∧ "developer_level" ∈ (labelingExecute df).cols)
      ∧ ("_title" ∉ (labelGradeExecute df).cols
        ∧ "Ищет работу на должность:" ∉ (labelGradeExecute df).cols
        ∧ "experience_months" ∉ (labelGradeExecute df).cols
        ∧ "grade" ∈ (labelGradeExecute df).cols) := by
  intro df
  constructor
  · unfold labelingExecute
    by_cases ht : "Ищет работу на должность:" ∈ df.cols <;>
      by_cases he : "experience_months" ∈ df.cols <;>
        simp [ht, he, mem_dropCols, mem_addColName, applyRowCol, setConstCol]
  · unfold labelGradeExecute
    by_cases ht : "Ищет работу на должность:" ∈ df.cols <;>
      by_cases hj : "job" ∈ df.cols <;>
        by_cases he : "experience_months" ∈ df.cols <;>
          by_cases hp : "Последеняя/нынешняя должность" ∈ df.cols <;>
            simp [ht, hj, he, hp, mem_dropCols, mem_addColName, applyRowCol,
              setConstCol]

/-! ### Lemmas for the categorical encoder -/

theorem length_insertSorted (x : String) (l : List String) :
    (insertSorted x l).length = l.length + 1 := by
  induction l with
  | nil => rfl
  | cons y ys ih =>
      unfold insertSorted
      by_cases h : strLeB x y = true
      · rw [if_pos h]
        rfl
      · rw [if_neg h]
        rw [List.length_cons, ih, List.length_cons]

theorem length_sortStr (l : List String) : (sortStr l).length = l.length := by
  induction l with
  | nil => rfl
  | cons x xs ih =>
      show (insertSorted x (sortStr xs)).length = xs.length + 1
      rw [length_insertSorted, ih]

theorem dummyColsOf_length (name : String) (vals : List Cell) :
    (dummyColsOf name vals).length = (observedStrs vals).dedup.length - 1 := by
  unfold dummyColsOf levelsOf
  rw [List.length_map, List.length_tail, length_sortStr]

theorem dummyColsOf_names (name : String) (vals : List Cell) :
    (dummyColsOf name vals).map (fun c => c.1)
      = (levelsOf vals).tail.map (fun v => name ++ "_" ++ v) := by
  unfold dummyColsOf
  rw [List.map_map]
  rfl

theorem contains_names {df : CDf} {n : String} :
    ((colNames df).contains n = true) ↔ n ∈ colNames df := by
  simp [List.contains, List.elem_eq_mem]

theorem objNames_nodup {df : CDf} (h : (colNames df).Nodup) :
    ((df.cols.filter (fun c => c.2.1 = ColKind.obj)).map (fun c => c.1)).Nodup :=
  List.Nodup.sublist (List.Sublist.map _ (List.filter_sublist df.cols)) h

theorem target_not_in_catCols {df : CDf} (h : (colNames df).Nodup) :
    ¬ "developer_level" ∈ categorical_cols df := by
  unfold categorical_cols
  intro hmem
  rw [(objNames_nodup h).mem_erase_iff] at hmem
  exact hmem.1 rfl

theorem mem_catCols_obj {df : CDf} {n : String} (h : n ∈ categorical_cols df) :
    ∃ p, p ∈ df.cols ∧ p.1 = n ∧ p.2.1 = ColKind.obj := by
  unfold categorical_cols at h
  have h2 := List.mem_of_mem_erase h
  rw [List.mem_map] at h2
  obtain ⟨p, hp, he⟩ := h2
  rw [List.mem_filter] at hp
  exact ⟨p, hp.1, he, by simpa using hp.2⟩

theorem not_in_catCols_of_num {df : CDf} {p : CCol} (hnd : (colNames df).Nodup)
    (hp : p ∈ df.cols) (hkind : ¬ p.2.1 = ColKind.obj) :
    ¬ p.1 ∈ categorical_cols df := by
  intro hmem
  obtain ⟨q, hq, hq1, hq2⟩ := mem_catCols_obj hmem
  have heq : q = p := List.inj_on_of_nodup_map hnd hq hp hq1
  rw [heq] at hq2
  exact hkind hq2

theorem mem_nonCat_names {df : CDf} {p : CCol} (hp : p ∈ df.cols)
    (hnot : ¬ p.1 ∈ categorical_cols df) :
    p.1 ∈ colNames (get_dummies (categorical_cols df) df) := by
  unfold get_dummies colNames
  rw [List.map_append, List.mem_append]
  left
  rw [List.mem_map]
  refine ⟨p, ?_, rfl⟩
  rw [List.mem_filter]
  exact ⟨hp, by simpa [List.contains, List.elem_eq_mem] using hnot⟩

theorem get_dummies_names (catCols : List String) (df : CDf) :
    colNames (get_dummies catCols df)
      = (df.cols.filter (fun c => !(catCols.contains c.1))).map (fun c => c.1)
        ++ (df.cols.filter (fun c => catCols.contains c.1)).flatMap
             (fun c => (dummyColsOf c.1 c.2.2).map (fun v => v.1)) := by
  unfold get_dummies colNames
  rw [List.map_append, List.map_flatMap]

theorem foldl_readd_names (src : CDf) (ns : List String) :
    ∀ acc : CDf, (∀ n ∈ ns, n ∈ colNames acc) →
      colNames (ns.foldl (fun acc n =>
        if (colNames acc).contains n then acc
        else match lookupCol n src with
             | some col => { cols := acc.cols ++ [col] }
             | none => acc) acc) = colNames acc := by
  induction ns with
  | nil => intro acc _; rfl
  | cons n rest ih =>
      intro acc hmem
      rw [List.foldl_cons]
      have hc : (colNames acc).contains n = true :=
        contains_names.mpr (hmem n (List.mem_cons_self n rest))
      rw [if_pos hc]
      exact ih acc (fun m hm => hmem m (List.mem_cons_of_mem n hm))

theorem setColC_names_of_mem {col : CCol} {df : CDf}
    (h : (colNames df).contains col.1 = true) :
    colNames (setColC col df) = colNames df := by
  unfold setColC
  rw [if_pos h]
  show (df.cols.map (fun c => if c.1 = col.1 then col else c)).map (fun c => c.1)
    = df.cols.map (fun c => c.1)
  rw [List.map_map]
  apply List.map_congr_left
  intro c _
  by_cases he : c.1 = col.1
  · simp [he]
  · simp [he]

theorem lookupCol_name {n : String} {df : CDf} {col : CCol}
    (h : lookupCol n df = some col) : col.1 = n := by
  have := List.find?_some h
  simpa using this

theorem lookupCol_mem {n : String} {df : CDf} {col : CCol}
    (h : lookupCol n df = some col) : col ∈ df.cols :=
  List.mem_of_find?_eq_some h

/-- C8: in the categorical-encoding stage, the target label column is never
among the encoded columns; every encoded source column with k distinct
observed values yields exactly k−1 indicator columns, deterministically
named source name, separator `_`, value; and the stage's output columns are
exactly the non-encoded columns (the target among them) followed by the
indicator columns of each encoded object column. -/
theorem c8_categorical_encoding :
    ∀ df : CDf, (colNames df).Nodup →
      ¬ "developer_level" ∈ categorical_cols df
      ∧ (∀ (name : String) (kind : ColKind) (vals : List Cell),
          (name, kind, vals) ∈ df.cols → name ∈ categorical_cols df →
            (dummyColsOf name vals).length = (observedStrs vals).dedup.length - 1
            ∧ (dummyColsOf name vals).map (fun c => c.1)
                = (levelsOf vals).tail.map (fun v => name ++ "_" ++ v))
      ∧ colNames (encoderExecute df)
          = (if (categorical_cols df).isEmpty then colNames df
             else
               (df.cols.filter
                  (fun c => !((categorical_cols df).contains c.1))).map (fun c => c.1)
                 ++ (df.cols.filter
                       (fun c => (categorical_cols df).contains c.1)).flatMap
                      (fun c => (dummyColsOf c.1 c.2.2).map (fun v => v.1))) := by
  intro df hnd
  refine ⟨target_not_in_catCols hnd, ?_, ?_⟩
  · intro name kind vals _ _
    exact ⟨dummyColsOf_length name vals, dummyColsOf_names name vals⟩
  · by_cases hempty : (categorical_cols df).isEmpty = true
    · rw [if_pos hempty]
      simp only [encoderExecute]
      rw [if_pos hempty]
    · rw [if_neg hempty]
      simp only [encoderExecute]
      rw [if_neg hempty]
      have hnum : ∀ n ∈ (((df.cols.filter (fun c => c.2.1 = ColKind.num)).map
            (fun c => c.1)).erase "developer_level"),
          n ∈ colNames (get_dummies (categorical_cols df) df) := by
        intro n hn
        have h2 := List.mem_of_mem_erase hn
        rw [List.mem_map] at h2
        obtain ⟨p, hp, he⟩ := h2
        rw [List.mem_filter] at hp
        have hkind : ¬ p.2.1 = ColKind.obj := by
          have := of_decide_eq_true hp.2
          rw [this]
          intro hcontra
          cases hcontra
        rw [← he]
        exact mem_nonCat_names hp.1 (not_in_catCols_of_num hnd hp.1 hkind)
      have hF := foldl_readd_names df
        (((df.cols.filter (fun c => c.2.1 = ColKind.num)).map
            (fun c => c.1)).erase "developer_level")
        (get_dummies (categorical_cols df) df) hnum
      by_cases ht : (colNames df).contains "developer_level" = true
      · rw [if_pos ht]
        have hmemdf : "developer_level" ∈ df.cols.map (fun c => c.1) :=
          contains_names.mp ht
        rw [List.mem_map] at hmemdf
        obtain ⟨p, hp, he⟩ := hmemdf
        cases hl : lookupCol "developer_level" df with
        | none =>
            rw [lookupCol, List.find?_eq_none] at hl
            exact absurd (by simpa using he) (by simpa using hl p hp)
        | some col =>
            have hcolname : col.1 = "developer_level" := lookupCol_name hl
            have htargetE : "developer_level"
                ∈ colNames (get_dummies (categorical_cols df) df) := by
              have hnotcat : ¬ p.1 ∈ categorical_cols df := by
                rw [he]
                exact target_not_in_catCols hnd
              rw [← he]
              exact mem_nonCat_names hp hnotcat
            have hcont : (colNames ((((df.cols.filter
                (fun c => c.2.1 = ColKind.num)).map (fun c => c.1)).erase
                  "developer_level").foldl (fun acc n =>
                    if (colNames acc).contains n then acc
                    else match lookupCol n df with
                         | some c => { cols := acc.cols ++ [c] }
                         | none => acc)
                  (get_dummies (categorical_cols df) df))).contains col.1 = true := by
              rw [hcolname]
              exact contains_names.mpr (hF ▸ htargetE)
            change colNames (setColC col _) = _
            rw [setColC_names_of_mem hcont, hF, get_dummies_names]
      · rw [if_neg ht]
        rw [hF, get_dummies_names]

/-- Witness for `c8_categorical_encoding`: a concrete frame with one object
feature column (3 distinct values), one numeric column and the target. -/
theorem c8_witness :
    ¬ "developer_level" ∈ categorical_cols c8df
    ∧ ((dummyColsOf "region" c8vals).length = (observedStrs c8vals).dedup.length - 1
       ∧ (dummyColsOf "region" c8vals).map (fun c => c.1)
           = (levelsOf c8vals).tail.map (fun v => "region" ++ "_" ++ v))
    ∧ colNames (encoderExecute c8df)
        = (if (categorical_cols c8df).isEmpty then colNames c8df
           else
             (c8df.cols.filter
                (fun c => !((categorical_cols c8df).contains c.1))).map (fun c => c.1)
               ++ (c8df.cols.filter
                     (fun c => (categorical_cols c8df).contains c.1)).flatMap
                    (fun c => (dummyColsOf c.1 c.2.2).map (fun v => v.1))) :=
  have h := c8_categorical_encoding c8df (by decide)
  ⟨h.1, h.2.1 "region" ColKind.obj c8vals (by decide) (by decide), h.2.2⟩

end HW6
